import Mathlib

/-! Shallow embedding of the `bootstrap validate` command of
`project-ai-services` (file `cmd/ai-services/cmd/bootstrap.go`).

The host environment visible to the program is captured by `Env`:
the effective user id, the contents (or read error) of the two system
files the tool reads, the target architecture identifier, and the
outcome of the external container-runtime validator.  Every check of
the Go file becomes a pure function `Env → Option String` returning
`none` on success and `some msg` where the Go code returns an error
with message `msg`.  The runner `validateCmdRun` returns the list of
error-level log lines it emits together with the returned error.
-/

/-- Go `strings.HasPrefix` on rune lists: `listStartsWith s pat` is true
iff `pat` is an initial segment of `s`. -/
def listStartsWith : List Char → List Char → Bool
  | _, [] => true
  | [], _ :: _ => false
  | c :: s, d :: p => c = d && listStartsWith s p

/-- Occurrence test used by Go `strings.Contains(s, pat)`:
`containsSub pat s` is true iff `pat` occurs contiguously in `s`. -/
def containsSub (pat : List Char) : List Char → Bool
  | [] => listStartsWith [] pat
  | c :: t => listStartsWith (c :: t) pat || containsSub pat t

/-- Go `strings.Contains(s, pat)`. -/
def goContains (s pat : String) : Bool :=
  containsSub pat.data s.data

/-- Go `strings.Index(s, pat)` followed by slicing off everything up to and
including the first occurrence: `afterFirst pat s = some rest` when
`pat` occurs in `s` and `rest` is the suffix after the first occurrence,
`none` when `strings.Index` would return `-1`. -/
def afterFirst (pat : List Char) : List Char → Option (List Char)
  | [] => if listStartsWith [] pat then some ([].drop pat.length) else none
  | c :: t =>
    if listStartsWith (c :: t) pat then some ((c :: t).drop pat.length)
    else afterFirst pat t

/-- Go `strings.Trim(s, "\x22")`: strip any number of double quotes from
both ends. -/
def trimQuote (s : List Char) : List Char :=
  ((s.dropWhile (fun c => c = '"')).reverse.dropWhile (fun c => c = '"')).reverse

/-- Go `strings.Split(s, sep)` for a one-byte separator, accumulator form. -/
def splitCharAux (sep : Char) : List Char → List Char → List (List Char)
  | [], acc => [acc.reverse]
  | c :: t, acc =>
    if c = sep then acc.reverse :: splitCharAux sep t []
    else splitCharAux sep t (c :: acc)

/-- Go `strings.Split(s, sep)` for a one-byte separator such as `"."`. -/
def splitChar (sep : Char) (s : String) : List String :=
  (splitCharAux sep s.data []).map String.mk

/-- Numeric value of a list of decimal digits, most significant first. -/
def digitsVal (ds : List Char) : Nat :=
  ds.foldl (fun acc d => acc * 10 + (d.toNat - ('0').toNat)) 0

/-- The successful path of Go `strconv.Atoi`: an optional single sign
character followed by at least one ASCII digit; `none` on any syntax
error. -/
def goParseInt (s : String) : Option Int :=
  match s.data with
  | [] => none
  | c :: rest =>
    let ds := if c = '-' ∨ c = '+' then rest else c :: rest
    if ds ≠ [] ∧ ds.all Char.isDigit = true then
      some (if c = '-' then -(digitsVal ds : Int) else (digitsVal ds : Int))
    else none

/-- Go `strconv.Atoi` with the error discarded, as in
`major, _ := strconv.Atoi(parts[0])`: syntax errors yield 0, range
errors yield the nearest representable 64-bit value. -/
def atoi (s : String) : Int :=
  match goParseInt s with
  | some n =>
    if n > 2 ^ 63 - 1 then 2 ^ 63 - 1
    else if n < -(2 ^ 63) then -(2 ^ 63) else n
  | none => 0

/-- Host environment observed by one run of `bootstrap validate`.
`osRelease` and `cpuinfo` are the results of `os.ReadFile` on
`/etc/os-release` and `/proc/cpuinfo` (`Except.error e` carries the I/O
error message `e`); `goarch` is `runtime.GOARCH`; `podman` is the
outcome of the external container-runtime validator.

Modelled from the spec: the field `podman` stands for the package
`internal/pkg/validators` (function `validators.Podman`), which is not
part of the sources; per the spec it returns (version-info, error) and
the core only needs its success/failure and error text. -/
structure Env where
  euid : Int
  osRelease : Except String String
  cpuinfo : Except String String
  goarch : String
  podman : Except String String

/-- Go function `rootCheck` (bootstrap.go lines 141-152): error unless the effective
user id is 0. -/
def rootCheck (env : Env) : Option String :=
  if env.euid = 0 then none
  else some "root privileges are required to run this command"

/-- Lines 165-167: the release file identifies RHEL via any of three
markers. -/
def isRHEL (osInfo : String) : Bool :=
  goContains osInfo "Red Hat Enterprise Linux" ||
    goContains osInfo "ID=\"rhel\"" ||
    goContains osInfo "ID=rhel"

/-- Lines 174-182: locate `VERSION_ID=`, keep the rest of that line,
strip surrounding quotes.  `none` when `strings.Index` returns `-1`. -/
def versionOf (osInfo : String) : Option String :=
  (afterFirst ("VERSION_ID=").data osInfo.data).map
    (fun rest => String.mk (trimQuote (rest.takeWhile (fun c => c ≠ '\n'))))

/-- Lines 184-185: `parts := strings.Split(version, "."); major, _ :=
strconv.Atoi(parts[0])`. -/
def majorOf (version : String) : Int :=
  atoi ((splitChar '.' version).headD "")

/-- Lines 186-189: minor defaults to 0 unless a second dot-separated
component exists, in which case it is `Atoi`ed with the error
discarded. -/
def minorOf (version : String) : Int :=
  if (splitChar '.' version).length > 1 then
    atoi ((splitChar '.' version).getD 1 "")
  else 0

/-- Lines 191-196: the version gate of `validateOS`. -/
def versionCheck (version : String) : Option String :=
  if majorOf version < 9 ∨ (majorOf version = 9 ∧ minorOf version < 6) then
    some ("❌ unsupported RHEL version: " ++ version ++
      ". Minimum required version is 9.6")
  else none

/-- Go function `validateOS` (lines 155-197): read `/etc/os-release`, require a RHEL
marker, then require version ≥ 9.6. -/
def validateOS (env : Env) : Option String :=
  match env.osRelease with
  | .error e => some e
  | .ok osInfo =>
    if !(isRHEL osInfo) then
      some "❌ unsupported operating system: only RHEL is supported"
    else
      match versionOf osInfo with
      | none => some "unable to determine OS version"
      | some version => versionCheck version

/-- Go function `validateRHNRegistration` (lines 200-203): stub, always nil. -/
def validateRHNRegistration (_ : Env) : Option String :=
  none

/-- Go function `validateLTCRPMRepo` (lines 206-209): stub, always nil. -/
def validateLTCRPMRepo (_ : Env) : Option String :=
  none

/-- Lines 107-112 of the runner: the external `validators.Podman` call,
with a failure wrapped as `fmt.Errorf("❌ podman validation failed: %w", err)`. -/
def podmanCheck (env : Env) : Option String :=
  match env.podman with
  | .ok _ => none
  | .error e => some ("❌ podman validation failed: " ++ e)

/-- Go function `validatePowerVersion` (lines 212-226): require `GOARCH = ppc64le`,
then require a readable `/proc/cpuinfo` containing `POWER11`. -/
def validatePowerVersion (env : Env) : Option String :=
  if env.goarch ≠ "ppc64le" then
    some ("❌ unsupported architecture: " ++ env.goarch ++
      ". IBM Power architecture (ppc64le) is required")
  else
    match env.cpuinfo with
    | .ok data =>
      if goContains data "POWER11" then none
      else some "❌ unsupported IBM Power version: POWER11 is required"
    | .error _ => some "❌ unsupported IBM Power version: POWER11 is required"

/-- Go function `validateRHAIISLicense` (lines 229-232): stub, always nil. -/
def validateRHAIISLicense (_ : Env) : Option String :=
  none

/-- The six non-fatal checks of the runner (lines 91-122) in execution
order. -/
def checksOutcomes (env : Env) : List (Option String) :=
  [validateOS env, validateRHNRegistration env, validateLTCRPMRepo env,
    podmanCheck env, validatePowerVersion env, validateRHAIISLicense env]

/-- The slice `validationErrors` as accumulated by lines 84-122: the
failure messages of the six checks, in execution order. -/
def validationErrors (env : Env) : List String :=
  (checksOutcomes env).filterMap id

/-- The loop of lines 126-128: `logger.Error(fmt.Sprintf("  %d. %s", i+1, err))`
over the accumulated errors, with `i` counting from `start`. -/
def enumerateFrom (start : Nat) : List String → List String
  | [] => []
  | e :: t => ("  " ++ Nat.repr (start + 1) ++ ". " ++ e) :: enumerateFrom (start + 1) t

/-- The enumeration lines produced for a failure list (1-indexed). -/
def enumerateFailures (errs : List String) : List String :=
  enumerateFrom 0 errs

/-- Lines 124-136: after the root check has passed, aggregate the
accumulated failures.  First component: the error-level log lines
emitted; second component: the error returned by the command (`none`
means success). -/
def runChecks (env : Env) : List String × Option String :=
  let errs := validationErrors env
  if errs.length > 0 then
    ("❌ Validation failed with errors:" :: enumerateFailures errs,
      some (Nat.repr errs.length ++ " validation check(s) failed"))
  else ([], none)

/-- The whole `RunE` body of `validateCmd` (lines 81-137): a failed root
check returns its error at once (lines 87-89); otherwise the six checks
run and the failures are aggregated. -/
def validateCmdRun (env : Env) : List String × Option String :=
  match rootCheck env with
  | some e => ([], some e)
  | none => runChecks env

/-- A root environment with the given release-file content, a readable
POWER11 cpuinfo, ppc64le architecture and a working container runtime. -/
def envWithOS (s : String) : Env :=
  { euid := 0, osRelease := .ok s, cpuinfo := .ok "cpu: POWER11",
    goarch := "ppc64le", podman := .ok "4.9" }

/-- The mixed-failure scenario of the spec: RHEL 9.0 and a missing
container runtime, correct architecture and CPU info. -/
def envMixed : Env :=
  { euid := 0, osRelease := .ok "ID=\"rhel\"\nVERSION_ID=\"9.0\"\n",
    cpuinfo := .ok "cpu: POWER11", goarch := "ppc64le",
    podman := .error "podman not installed" }

/-- A ppc64le machine whose cpuinfo file is unreadable. -/
def envCpuUnreadable : Env :=
  { euid := 0, osRelease := .ok "ID=\"rhel\"\nVERSION_ID=\"9.6\"\n",
    cpuinfo := .error "open /proc/cpuinfo: permission denied",
    goarch := "ppc64le", podman := .ok "4.9" }

/-- A ppc64le machine with a readable cpuinfo naming an older CPU
generation. -/
def envCpuPower10 : Env :=
  { euid := 0, osRelease := .ok "ID=\"rhel\"\nVERSION_ID=\"9.6\"\n",
    cpuinfo := .ok "cpu: POWER10", goarch := "ppc64le", podman := .ok "4.9" }

/-- A machine whose OS release file is unreadable. -/
def envOsUnreadable : Env :=
  { euid := 0, osRelease := .error "open /etc/os-release: permission denied",
    cpuinfo := .ok "cpu: POWER11", goarch := "ppc64le", podman := .ok "4.9" }

/-- An environment with a non-root effective user id. -/
def envNonRoot : Env :=
  { euid := 1000, osRelease := .ok "ID=\"rhel\"\nVERSION_ID=\"9.6\"\n",
    cpuinfo := .ok "cpu: POWER11", goarch := "ppc64le", podman := .ok "4.9" }

lemma str_data_append (s t : String) : (s ++ t).data = s.data ++ t.data := by
  cases s
  cases t
  rfl

/-- Two strings differ whenever they differ on an initial segment that
lies inside a fixed left part, whatever is appended in the middle. -/
lemma str_ne_of_start_ne (A B t : String) (n : Nat) (hn : n ≤ A.data.length)
    (h : A.data.take n ≠ t.data.take n) (v : String) : A ++ v ++ B ≠ t := by
  intro he
  apply h
  have hd : (A ++ v ++ B).data = A.data ++ (v.data ++ B.data) := by
    rw [str_data_append, str_data_append, List.append_assoc]
  calc A.data.take n
      = (A.data ++ (v.data ++ B.data)).take n :=
        (List.take_append_of_le_length hn).symm
    _ = (A ++ v ++ B).data.take n := by rw [hd]
    _ = t.data.take n := by rw [he]

lemma versionMsg_ne_unsupportedOS (v : String) :
    ("❌ unsupported RHEL version: " ++ v ++
      ". Minimum required version is 9.6" : String) ≠
      "❌ unsupported operating system: only RHEL is supported" :=
  str_ne_of_start_ne "❌ unsupported RHEL version: "
    ". Minimum required version is 9.6"
    "❌ unsupported operating system: only RHEL is supported"
    15 (by decide) (by decide) v

lemma versionMsg_ne_unableMsg (v : String) :
    ("❌ unsupported RHEL version: " ++ v ++
      ". Minimum required version is 9.6" : String) ≠
      "unable to determine OS version" :=
  str_ne_of_start_ne "❌ unsupported RHEL version: "
    ". Minimum required version is 9.6"
    "unable to determine OS version" 1 (by decide) (by decide) v

lemma archMsg_ne_powerMsg (a : String) :
    ("❌ unsupported architecture: " ++ a ++
      ". IBM Power architecture (ppc64le) is required" : String) ≠
      "❌ unsupported IBM Power version: POWER11 is required" :=
  str_ne_of_start_ne "❌ unsupported architecture: "
    ". IBM Power architecture (ppc64le) is required"
    "❌ unsupported IBM Power version: POWER11 is required"
    15 (by decide) (by decide) a

/-- Each enumeration line carries its 1-based position and the matching
message. -/
lemma enumerateFrom_getD (errs : List String) (start i : Nat)
    (h : i < errs.length) :
    (enumerateFrom start errs).getD i "" =
      "  " ++ Nat.repr (start + i + 1) ++ ". " ++ errs.getD i "" := by
  induction errs generalizing start i with
  | nil => simp at h
  | cons e t ih =>
    cases i with
    | zero => simp [enumerateFrom]
    | succ j =>
      have hj : j < t.length := by simpa using h
      have := ih (start + 1) j hj
      simp only [enumerateFrom, List.getD_cons_succ]
      rw [this]
      have harith : start + 1 + j + 1 = start + (j + 1) + 1 := by omega
      rw [harith]

/-- Claim C2: whenever the effective user id is non-zero, the run returns
the privilege error immediately, with no enumeration lines and with an
outcome independent of every other environment field (so no later check
is observable); when the effective user id is 0 the privilege check
passes and the run proceeds to the six aggregated checks. -/
theorem privilege_short_circuit :
    (∀ env : Env, env.euid ≠ 0 →
      validateCmdRun env =
        ([], some "root privileges are required to run this command")) ∧
    (∀ env env' : Env, env.euid ≠ 0 → env'.euid ≠ 0 →
      validateCmdRun env = validateCmdRun env') ∧
    (∀ env : Env, env.euid = 0 →
      rootCheck env = none ∧ validateCmdRun env = runChecks env) := by
  refine ⟨?_, ?_, ?_⟩
  · intro env h
    simp [validateCmdRun, rootCheck, h]
  · intro env env' h h'
    simp [validateCmdRun, rootCheck, h, h']
  · intro env h
    refine ⟨by simp [rootCheck, h], by simp [validateCmdRun, rootCheck, h]⟩

/-- Witness for C2 at a concrete non-root environment. -/
theorem privilege_short_circuit_witness :
    validateCmdRun envNonRoot =
      ([], some "root privileges are required to run this command") :=
  privilege_short_circuit.1 envNonRoot (by decide)

/-- Claim C7: the registration-status, package-repository and license
checks always succeed, for every environment. -/
theorem stub_checks_always_pass (env : Env) :
    validateRHNRegistration env = none ∧ validateLTCRPMRepo env = none ∧
      validateRHAIISLicense env = none :=
  ⟨rfl, rfl, rfl⟩

/-- Claim C3: for readable release content carrying a RHEL marker and a
VERSION_ID field, the version is parsed as two dot-separated integers
(minor defaulting to 0) and the check passes iff major > 9 or
(major = 9 and minor ≥ 6); at the boundaries, 9.6, 10.0 and 9.10 pass
while 9.5 and a bare 9 fail. -/
theorem version_gate_boundary :
    (∀ (env : Env) (osInfo v : String), env.osRelease = .ok osInfo →
      isRHEL osInfo = true → versionOf osInfo = some v →
      (validateOS env = none ↔
        (9 < majorOf v ∨ (majorOf v = 9 ∧ 6 ≤ minorOf v)))) ∧
    validateOS (envWithOS "ID=\"rhel\"\nVERSION_ID=\"9.6\"\n") = none ∧
    validateOS (envWithOS "ID=\"rhel\"\nVERSION_ID=\"10.0\"\n") = none ∧
    validateOS (envWithOS "ID=\"rhel\"\nVERSION_ID=\"9.10\"\n") = none ∧
    validateOS (envWithOS "ID=\"rhel\"\nVERSION_ID=\"9.5\"\n") =
      some "❌ unsupported RHEL version: 9.5. Minimum required version is 9.6" ∧
    validateOS (envWithOS "ID=\"rhel\"\nVERSION_ID=\"9\"\n") =
      some "❌ unsupported RHEL version: 9. Minimum required version is 9.6" := by
  refine ⟨?_, by decide, by decide, by decide, by decide, by decide⟩
  intro env osInfo v hok hrhel hver
  simp only [validateOS, hok, hrhel, hver, versionCheck, Bool.not_true,
    Bool.false_eq_true, if_false, ite_eq_right_iff]
  constructor
  · intro h
    by_cases hc : majorOf v < 9 ∨ (majorOf v = 9 ∧ minorOf v < 6)
    · exact absurd (h hc) (by simp)
    · omega
  · intro h hc
    omega

/-- Witness for C3 at the 9.6 boundary. -/
theorem version_gate_boundary_witness :
    validateOS (envWithOS "ID=\"rhel\"\nVERSION_ID=\"9.6\"\n") = none :=
  (version_gate_boundary.1 (envWithOS "ID=\"rhel\"\nVERSION_ID=\"9.6\"\n")
    "ID=\"rhel\"\nVERSION_ID=\"9.6\"\n" "9.6" rfl (by decide) (by decide)).mpr
    (by decide)

/-- Claim C10: integer-parse failures in the version components are
silently discarded and the component becomes 0: a major part that is not
a decimal integer always fails the gate with the "unsupported RHEL
version" message quoting the original string, never with the "cannot
determine version" failure, and a non-numeric minor part is treated
as 0. -/
theorem atoi_failure_is_zero :
    (∀ (env : Env) (osInfo v : String), env.osRelease = .ok osInfo →
      isRHEL osInfo = true → versionOf osInfo = some v →
      goParseInt ((splitChar '.' v).headD "") = none →
      validateOS env =
        some ("❌ unsupported RHEL version: " ++ v ++
          ". Minimum required version is 9.6")) ∧
    (∀ v : String, goParseInt ((splitChar '.' v).headD "") = none →
      majorOf v = 0) ∧
    (∀ v : String, (splitChar '.' v).length > 1 →
      goParseInt ((splitChar '.' v).getD 1 "") = none → minorOf v = 0) ∧
    validateOS (envWithOS "ID=rhel\nVERSION_ID=\"abc\"\n") =
      some "❌ unsupported RHEL version: abc. Minimum required version is 9.6" := by
  refine ⟨?_, ?_, ?_, by decide⟩
  · intro env osInfo v hok hrhel hver hparse
    have hm : majorOf v = 0 := by
      unfold majorOf atoi
      rw [hparse]
    have hvc : versionCheck v =
        some ("❌ unsupported RHEL version: " ++ v ++
          ". Minimum required version is 9.6") := by
      unfold versionCheck
      exact if_pos (Or.inl (by omega))
    simp [validateOS, hok, hrhel, hver, hvc]
  · intro v hparse
    unfold majorOf atoi
    rw [hparse]
  · intro v hlen hparse
    unfold minorOf atoi
    rw [if_pos hlen, hparse]

/-- Witness for C10: VERSION_ID="abc" fails with the version message
quoting "abc". -/
theorem atoi_failure_is_zero_witness :
    validateOS (envWithOS "ID=rhel\nVERSION_ID=abc\n") =
      some ("❌ unsupported RHEL version: " ++ "abc" ++
        ". Minimum required version is 9.6") :=
  atoi_failure_is_zero.1 (envWithOS "ID=rhel\nVERSION_ID=abc\n")
    "ID=rhel\nVERSION_ID=abc\n" "abc" rfl (by decide) (by decide) (by decide)

/-- Claim C8: RHEL-identified release content with no VERSION_ID field
fails with the distinct "unable to determine OS version" message, which
differs from both the below-minimum-version message and the
unsupported-distribution message. -/
theorem missing_version_id_distinct :
    (∀ (env : Env) (osInfo : String), env.osRelease = .ok osInfo →
      isRHEL osInfo = true →
      afterFirst ("VERSION_ID=").data osInfo.data = none →
      validateOS env = some "unable to determine OS version") ∧
    ("unable to determine OS version" : String) ≠
      "❌ unsupported operating system: only RHEL is supported" ∧
    (∀ v : String, ("unable to determine OS version" : String) ≠
      "❌ unsupported RHEL version: " ++ v ++
        ". Minimum required version is 9.6") := by
  refine ⟨?_, by decide, ?_⟩
  · intro env osInfo hok hrhel hnone
    simp [validateOS, hok, hrhel, versionOf, hnone]
  · intro v he
    exact versionMsg_ne_unableMsg v he.symm

/-- Witness for C8: release content with an RHEL marker but no
VERSION_ID. -/
theorem missing_version_id_distinct_witness :
    validateOS (envWithOS "ID=rhel\n") =
      some "unable to determine OS version" :=
  missing_version_id_distinct.1 (envWithOS "ID=rhel\n") "ID=rhel\n" rfl
    (by decide) (by decide)

/-- Claim C6: with readable release content, the unsupported-operating-
system failure occurs exactly when none of the three RHEL markers
(full name, quoted ID, unquoted ID) occurs in the content. -/
theorem rhel_marker_detection :
    ∀ (env : Env) (osInfo : String), env.osRelease = .ok osInfo →
      (validateOS env =
          some "❌ unsupported operating system: only RHEL is supported" ↔
        (goContains osInfo "Red Hat Enterprise Linux" = false ∧
          goContains osInfo "ID=\"rhel\"" = false ∧
          goContains osInfo "ID=rhel" = false)) := by
  intro env osInfo hok
  cases hR : isRHEL osInfo with
  | false =>
    have hmark : (goContains osInfo "Red Hat Enterprise Linux" = false ∧
        goContains osInfo "ID=\"rhel\"" = false) ∧
        goContains osInfo "ID=rhel" = false := by
      simpa [isRHEL] using hR
    obtain ⟨⟨h1, h2⟩, h3⟩ := hmark
    simp [validateOS, hok, hR, h1, h2, h3]
  | true =>
    apply iff_of_false
    · intro he
      rw [validateOS, hok] at he
      simp only [hR, Bool.not_true, Bool.false_eq_true, if_false] at he
      cases hv : versionOf osInfo with
      | none =>
        simp only [hv] at he
        exact absurd (Option.some.inj he) (by decide)
      | some v =>
        simp only [hv, versionCheck] at he
        by_cases hc : majorOf v < 9 ∨ (majorOf v = 9 ∧ minorOf v < 6)
        · rw [if_pos hc] at he
          exact versionMsg_ne_unsupportedOS v (Option.some.inj he)
        · rw [if_neg hc] at he
          exact Option.noConfusion he
    · intro hmark
      obtain ⟨h1, h2, h3⟩ := hmark
      simp [isRHEL, h1, h2, h3] at hR

/-- Witness for C6 at content carrying none of the markers. -/
theorem rhel_marker_detection_witness :
    validateOS (envWithOS "ID=fedora\nVERSION_ID=\"40\"\n") =
      some "❌ unsupported operating system: only RHEL is supported" :=
  (rhel_marker_detection (envWithOS "ID=fedora\nVERSION_ID=\"40\"\n")
    "ID=fedora\nVERSION_ID=\"40\"\n" rfl).mpr (by decide)

/-- Claim C5: the architecture check passes iff the target architecture
is ppc64le and the CPU-info file is readable with content naming
POWER11; a wrong architecture fails with a message naming the actual
architecture, a right architecture with wrong or unreadable CPU info
fails with the distinct "unsupported IBM Power version" message. -/
theorem power_check_characterisation :
    ∀ env : Env,
      (validatePowerVersion env = none ↔
        (env.goarch = "ppc64le" ∧
          ∃ d, env.cpuinfo = .ok d ∧ goContains d "POWER11" = true)) ∧
      (env.goarch ≠ "ppc64le" →
        validatePowerVersion env =
          some ("❌ unsupported architecture: " ++ env.goarch ++
            ". IBM Power architecture (ppc64le) is required")) ∧
      (∀ d, env.goarch = "ppc64le" → env.cpuinfo = .ok d →
        goContains d "POWER11" = false →
        validatePowerVersion env =
          some "❌ unsupported IBM Power version: POWER11 is required") ∧
      (∀ a : String,
        ("❌ unsupported architecture: " ++ a ++
          ". IBM Power architecture (ppc64le) is required" : String) ≠
          "❌ unsupported IBM Power version: POWER11 is required") := by
  intro env
  refine ⟨?_, ?_, ?_, archMsg_ne_powerMsg⟩
  · by_cases hg : env.goarch = "ppc64le"
    · cases hc : env.cpuinfo with
      | ok d =>
        cases hp : goContains d "POWER11" with
        | true => simp [validatePowerVersion, hg, hc, hp]
        | false => simp [validatePowerVersion, hg, hc, hp]
      | error e => simp [validatePowerVersion, hg, hc]
    · simp [validatePowerVersion, hg]
  · intro h
    simp [validatePowerVersion, h]
  · intro d hg hc hp
    simp [validatePowerVersion, hg, hc, hp]

/-- Witness for C5: a ppc64le machine with readable POWER11 cpuinfo
passes. -/
theorem power_check_characterisation_witness :
    validatePowerVersion envMixed = none :=
  (power_check_characterisation envMixed).1.mpr
    ⟨rfl, "cpu: POWER11", rfl, by decide⟩

/-- Claim C9 counterexample: on a ppc64le machine an unreadable CPU-info
file yields exactly the same "unsupported IBM Power version" message as
a readable CPU-info file naming a wrong generation, and that message
says nothing about reading or files — the unreadable CPU-info file is
reported as a logical mismatch, contradicting the claim. -/
theorem cpuinfo_unreadable_counterexample :
    validatePowerVersion envCpuUnreadable =
      some "❌ unsupported IBM Power version: POWER11 is required" ∧
    validatePowerVersion envCpuPower10 =
      some "❌ unsupported IBM Power version: POWER11 is required" ∧
    validatePowerVersion envCpuUnreadable = validatePowerVersion envCpuPower10 ∧
    goContains "❌ unsupported IBM Power version: POWER11 is required"
      "read" = false ∧
    goContains "❌ unsupported IBM Power version: POWER11 is required"
      "file" = false := by
  refine ⟨by decide, by decide, by decide, by decide, by decide⟩

/-- Claim C9 amended: an unreadable OS release-metadata file is recorded
as a non-fatal failure carrying the read error text, while an unreadable
CPU-info file on a ppc64le machine is reported with the same generic
"unsupported IBM Power version" message as a wrong CPU generation, not
with a read-failure message. -/
theorem unreadable_file_handling :
    (∀ (env : Env) (e : String), env.osRelease = .error e →
      validateOS env = some e) ∧
    (∀ (env : Env) (e : String), env.goarch = "ppc64le" →
      env.cpuinfo = .error e →
      validatePowerVersion env =
        some "❌ unsupported IBM Power version: POWER11 is required") := by
  constructor
  · intro env e he
    simp [validateOS, he]
  · intro env e hg he
    simp [validatePowerVersion, hg, he]

/-- Witness for the amended C9 at concrete unreadable files. -/
theorem unreadable_file_handling_witness :
    validateOS envOsUnreadable =
      some "open /etc/os-release: permission denied" :=
  unreadable_file_handling.1 envOsUnreadable
    "open /etc/os-release: permission denied" rfl

/-- Claim C1: once the privilege check passes, the run's outcome is the
aggregation of all six checks: the report enumerates every accumulated
failure 1-indexed in execution order (line i holds position i+1 and the
i-th message), a failing later check is always in the report whatever
earlier checks did, and the spec's mixed scenario (RHEL 9.0 and a
missing container runtime, correct architecture and CPU info) yields
exactly the 2 failures [version check, runtime check] in order and an
error result. -/
theorem aggregation_and_mixed_scenario :
    (∀ env : Env, env.euid = 0 →
      validateCmdRun env =
        (if validationErrors env = [] then ([], none)
         else ("❌ Validation failed with errors:" ::
              enumerateFailures (validationErrors env),
            some (Nat.repr (validationErrors env).length ++
              " validation check(s) failed")))) ∧
    (∀ (env : Env) (m : String), validatePowerVersion env = some m →
      m ∈ validationErrors env) ∧
    (∀ (env : Env) (m : String), podmanCheck env = some m →
      m ∈ validationErrors env) ∧
    (∀ (errs : List String) (i : Nat), i < errs.length →
      (enumerateFailures errs).getD i "" =
        "  " ++ Nat.repr (i + 1) ++ ". " ++ errs.getD i "") ∧
    validationErrors envMixed =
      ["❌ unsupported RHEL version: 9.0. Minimum required version is 9.6",
        "❌ podman validation failed: podman not installed"] ∧
    validateCmdRun envMixed =
      (["❌ Validation failed with errors:",
        "  1. ❌ unsupported RHEL version: 9.0. Minimum required version is 9.6",
        "  2. ❌ podman validation failed: podman not installed"],
        some "2 validation check(s) failed") := by
  refine ⟨?_, ?_, ?_, ?_, by decide, by decide⟩
  · intro env h
    have hroot : rootCheck env = none := by simp [rootCheck, h]
    cases he : validationErrors env with
    | nil => simp [validateCmdRun, hroot, runChecks, he]
    | cons a t => simp [validateCmdRun, hroot, runChecks, he]
  · intro env m hm
    unfold validationErrors
    exact List.mem_filterMap.mpr ⟨some m, by simp [checksOutcomes, hm], rfl⟩
  · intro env m hm
    unfold validationErrors
    exact List.mem_filterMap.mpr ⟨some m, by simp [checksOutcomes, hm], rfl⟩
  · intro errs i h
    have := enumerateFrom_getD errs 0 i h
    simpa [enumerateFailures] using this

/-- Witness for C1 at the mixed-failure scenario environment. -/
theorem aggregation_and_mixed_scenario_witness :
    validateCmdRun envMixed =
      (if validationErrors envMixed = [] then ([], none)
       else ("❌ Validation failed with errors:" ::
            enumerateFailures (validationErrors envMixed),
          some (Nat.repr (validationErrors envMixed).length ++
            " validation check(s) failed"))) :=
  aggregation_and_mixed_scenario.1 envMixed rfl

/-- Claim C4: with root privileges the run succeeds (no error) exactly
when every check passed; otherwise the single aggregate outcome carries
the failure count in the returned error and the individual failure
messages, in order, in the enumerated report. -/
theorem aggregate_failure_result :
    ∀ env : Env, env.euid = 0 →
      ((validateCmdRun env).2 = none ↔ validationErrors env = []) ∧
      (validationErrors env = [] → validateCmdRun env = ([], none)) ∧
      (validationErrors env ≠ [] →
        validateCmdRun env =
          ("❌ Validation failed with errors:" ::
              enumerateFailures (validationErrors env),
            some (Nat.repr (validationErrors env).length ++
              " validation check(s) failed"))) := by
  intro env h
  have hroot : rootCheck env = none := by simp [rootCheck, h]
  cases he : validationErrors env with
  | nil => refine ⟨?_, ?_, ?_⟩ <;> simp [validateCmdRun, hroot, runChecks, he]
  | cons a t => refine ⟨?_, ?_, ?_⟩ <;> simp [validateCmdRun, hroot, runChecks, he]

/-- Witness for C4 at an all-pass environment. -/
theorem aggregate_failure_result_witness :
    validateCmdRun (envWithOS "ID=\"rhel\"\nVERSION_ID=\"9.6\"\n") =
      ([], none) :=
  (aggregate_failure_result (envWithOS "ID=\"rhel\"\nVERSION_ID=\"9.6\"\n")
    rfl).2.1 (by decide)
